import Mathlib

/-!
Verification of the `tcm5343.github.io` personal-website repository.

The repository has three source files:
* `src/Header.tsx` — a React view component rendering a fixed list of four
  navigation labels as buttons inside a styled container;
* `vite.config.ts` — a Vite build configuration exporting an async factory
  that registers the React plugin and the MDX rollup plugin and sets a
  deployment base path;
* a Jekyll blog post (markdown prose with embedded code samples, no runtime
  behaviour).

The embedding below models the rendered virtual-DOM tree of the component,
the evaluation of the component body (including the fact that the label
array literal sits inside the function body and is therefore evaluated on
every render), and the resolved value of the build-configuration factory.
-/

/-- A virtual-DOM node: either a text node or an element with a tag, an
optional `className`, an optional `key`, a list of attached event-handler
names, and a list of children.  `src/Header.tsx` only ever builds elements
whose attributes are drawn from `key`, `className` and nested content, and
attaches no event handlers. -/
inductive Node where
  | text (s : String)
  | element (tag : String) (className : Option String) (key : Option String)
      (handlers : List String) (children : List Node)

/-- The CSS-module object imported by `import styles from
'./Header.module.css'`.  The stylesheet itself is not part of the source
under verification; each field is modelled by the property name the
component reads from the object. -/
structure Styles where
  header : String
  buttonContainer : String
  button : String

/-- The concrete styles object in scope in `Header.tsx`. -/
def styles : Styles :=
  { header := "header", buttonContainer := "buttonContainer", button := "button" }

/-- The array literal `["Home", "About", "Services", "Contact"]` appearing in
the body of the component. -/
def buttons : List String := ["Home", "About", "Services", "Contact"]

/-- One `<button key={label} className={styles.button}>{label}</button>`
element, as produced by the `buttons.map` callback. -/
def mkButton (label : String) : Node :=
  Node.element "button" (some styles.button) (some label) [] [Node.text label]

/-- The `Header` component: a function of no props (modelled by a `Unit`
argument) returning the rendered tree
`<header><div>{buttons.map ...}</div></header>`. -/
def Header : Unit → Node := fun _ =>
  Node.element "header" (some styles.header) none []
    [Node.element "div" (some styles.buttonContainer) none []
      (buttons.map mkButton)]

/-- Evaluation state of the JavaScript runtime relevant to the component:
the number of times the label-array literal has been allocated. -/
structure RenderState where
  allocs : Nat
deriving DecidableEq

/-- State of the runtime right after the module `Header.tsx` is evaluated:
the statements executed at import time are the CSS import and the binding of
the arrow function to `Header`; the array literal inside the function body is
not evaluated, so no label array has been allocated yet. -/
def headerModuleInit : RenderState := { allocs := 0 }

/-- Evaluating the array literal `["Home", "About", "Services", "Contact"]`
allocates a fresh array each time the surrounding function body runs. -/
def evalButtonsLiteral (s : RenderState) : RenderState × List String :=
  ({ allocs := s.allocs + 1 }, ["Home", "About", "Services", "Contact"])

/-- One invocation of the `Header` function: the body first evaluates the
`const buttons = [...]` statement (allocating the array), then returns the
JSX tree built from it. -/
def renderHeader (s : RenderState) : RenderState × Node :=
  let p := evalButtonsLiteral s
  (p.1,
    Node.element "header" (some styles.header) none []
      [Node.element "div" (some styles.buttonContainer) none []
        (p.2.map mkButton)])

/-- The same invocation, with every evaluation step lifted into `Except` so
that an error branch of the component's own, if it had one, would be
visible: evaluating the literal, mapping over the array and constructing
each element are the only steps the body performs, and none of them can
fail. -/
def renderHeaderE (s : RenderState) : Except String (RenderState × Node) := do
  let p := evalButtonsLiteral s
  let kids ← p.2.mapM (fun label => Except.ok (mkButton label))
  Except.ok (p.1,
    Node.element "header" (some styles.header) none []
      [Node.element "div" (some styles.buttonContainer) none [] kids])

mutual

/-- All clickable (`button`) elements of a tree, in document order. -/
def collectClickable : Node → List Node
  | Node.text _ => []
  | Node.element t c k h ch =>
      (if t = "button" then [Node.element t c k h ch] else []) ++
        collectClickableList ch

/-- All clickable elements of a forest, in document order. -/
def collectClickableList : List Node → List Node
  | [] => []
  | n :: ns => collectClickable n ++ collectClickableList ns

end

mutual

/-- Whether no node of the tree has an event handler attached. -/
def handlerFree : Node → Bool
  | Node.text _ => true
  | Node.element _ _ _ h ch => h.isEmpty && handlerFreeList ch

/-- Whether no node of the forest has an event handler attached. -/
def handlerFreeList : List Node → Bool
  | [] => true
  | n :: ns => handlerFree n && handlerFreeList ns

end

/-- The child list of a node (empty for a text node). -/
def childrenOf : Node → List Node
  | Node.text _ => []
  | Node.element _ _ _ _ ch => ch

/-- The displayed content of a button element holding a single text child. -/
def buttonLabel : Node → Option String
  | Node.element _ _ _ _ [Node.text s] => some s
  | _ => none

/-- The `key` attribute of a node. -/
def keyOf : Node → Option String
  | Node.text _ => none
  | Node.element _ _ k _ _ => k

/-- The identifiers of the two bundler plugins registered by
`vite.config.ts`: `react()` from `@vitejs/plugin-react` and the default
export of `@mdx-js/rollup`. -/
inductive Plugin where
  | react
  | mdx
deriving DecidableEq

/-- A value stored in a field of the configuration object literal. -/
inductive ConfigValue where
  | str (s : String)
  | pluginList (ps : List Plugin)
deriving DecidableEq

/-- The configuration object, field by field in source order. -/
abbrev ConfigObject := List (String × ConfigValue)

/-- The `react` plugin factory imported from `@vitejs/plugin-react`. -/
def reactFactory : Unit → Plugin := fun _ => Plugin.react

/-- The module object obtained from `import('@mdx-js/rollup')`: its default
export is the MDX plugin factory. -/
structure MdxModule where
  dflt : Unit → Plugin

/-- The actual `@mdx-js/rollup` module. -/
def mdxRollupModule : MdxModule := { dflt := fun _ => Plugin.mdx }

/-- Vite's `defineConfig` helper: an identity wrapper used only for typing. -/
def defineConfig (c : α) : α := c

/-- The async factory passed to `defineConfig`.  Its only awaited step is the
dynamic `import('@mdx-js/rollup')`, modelled as an `Except`-valued input
resolved by the bundler; the factory then returns the object literal with
the `base` string and the two-element `plugins` array. -/
def configFactory (imported : Except String MdxModule) : Except String ConfigObject := do
  let mdx ← imported
  Except.ok [("base", ConfigValue.str "https://tcm5343.github.io/"),
             ("plugins", ConfigValue.pluginList [reactFactory (), mdx.dflt ()])]

/-- The default export of `vite.config.ts`, evaluated against the real MDX
module. -/
def viteConfig : Except String ConfigObject :=
  defineConfig (configFactory (Except.ok mdxRollupModule))

/-- A source file of the repository together with its line count. -/
structure SourceFile where
  path : String
  lineCount : Nat

/-- The three source files of the repository: the view component
(19 lines), the build configuration (12 lines) and the blog post
(106 lines of markdown). -/
def repositoryFiles : List SourceFile :=
  [{ path := "src/Header.tsx", lineCount := 19 },
   { path := "vite.config.ts", lineCount := 12 },
   { path := "_posts/pytest-mocking-module-statements.md", lineCount := 106 }]

/-- Total number of source lines in the repository. -/
def totalLines : Nat := (repositoryFiles.map SourceFile.lineCount).sum

/-- C1: rendering the Header navigation view produces exactly four clickable
button elements, in the fixed order ["Home", "About", "Services", "Contact"],
each displaying its corresponding label text as its content, and no other
clickable elements anywhere in the rendered tree. -/
theorem header_clickable_exactly_four_labels :
    collectClickable (Header ()) = buttons.map mkButton ∧
    (collectClickable (Header ())).map buttonLabel =
      [some "Home", some "About", some "Services", some "Contact"] ∧
    (collectClickable (Header ())).length = 4 := by
  refine ⟨?_, ?_, ?_⟩ <;>
    simp [Header, buttons, mkButton, collectClickable, collectClickableList,
      buttonLabel, styles]

/-- C2 (counterexample): the claim says the four-label sequence is created at
component definition time and not anew on each render; in the code the array
literal sits inside the component body, so rendering from the state reached
right after module evaluation performs a fresh allocation of the sequence. -/
theorem buttons_allocated_during_render :
    (renderHeader headerModuleInit).1.allocs ≠ headerModuleInit.allocs := by
  decide

/-- C2 (amended): the four-label sequence is owned exclusively by the view
component, is created anew on each render (no sequence exists at module
definition time; each invocation of the body allocates exactly one), its
value is the same fixed four labels on every render, and it is never
persisted: no operation of the component mutates, replaces, or stores it. -/
theorem buttons_fresh_each_render_never_stored :
    headerModuleInit.allocs = 0 ∧
    (∀ s, (renderHeader s).1.allocs = s.allocs + 1) ∧
    (∀ s, (renderHeader s).2 = Header ()) :=
  ⟨rfl, fun _ => rfl, fun _ => rfl⟩

/-- C3: evaluating the build configuration registers exactly two plugins with
the bundler — the React plugin and the MDX transform — and sets a deployment
base path, and nothing else: the resolved object has exactly the fields
`base` and `plugins`. -/
theorem config_two_plugins_and_base_only :
    ∃ obj, viteConfig = Except.ok obj ∧
      obj.map Prod.fst = ["base", "plugins"] ∧
      obj.lookup "plugins" =
        some (ConfigValue.pluginList [Plugin.react, Plugin.mdx]) ∧
      (∃ b, obj.lookup "base" = some (ConfigValue.str b)) := by
  refine ⟨_, rfl, ?_, ?_, ⟨"https://tcm5343.github.io/", ?_⟩⟩ <;> decide

/-- C4: the Header view component exposes no props (its input type is the
unit type, so every invocation is the same call) and attaches no click or
other event handler to any node of the rendered tree. -/
theorem header_no_props_no_handlers :
    handlerFree (Header ()) = true ∧ ∀ u : Unit, Header u = Header () := by
  constructor
  · simp [Header, handlerFree, handlerFreeList, buttons, mkButton]
  · intro u
    rfl

/-- C5: the rendered output of the Header view is one container element that
holds exactly one button per label of the list, with the buttons in the same
order as the labels. -/
theorem header_one_container_one_button_per_label :
    ∃ container, childrenOf (Header ()) = [container] ∧
      childrenOf container = buttons.map mkButton :=
  ⟨_, rfl, rfl⟩

/-- C6: the Header view is stateless and deterministic: the rendered output
is identical across any two invocations, whatever the runtime state, and the
component function yields the same tree for every call. -/
theorem header_render_deterministic :
    (∀ s t : RenderState, (renderHeader s).2 = (renderHeader t).2) ∧
    (∀ u v : Unit, Header u = Header v) :=
  ⟨fun _ _ => rfl, fun _ _ => rfl⟩

/-- C7: no operation defined in this repository has an error branch of its
own: rendering the Header view is total — every evaluation step lifted into
`Except` succeeds — and the configuration factory fails only if the awaited
module import itself fails. -/
theorem operations_total_no_own_errors :
    (∀ s, renderHeaderE s = Except.ok (renderHeader s)) ∧
    (∀ m : MdxModule, ∃ obj, configFactory (Except.ok m) = Except.ok obj) :=
  ⟨fun _ => rfl, fun _ => ⟨_, rfl⟩⟩

/-- C8: the repository consists of three source files — the view component,
the build configuration and the blog post — whose total line count is
strictly below 140. -/
theorem repository_under_140_lines :
    totalLines < 140 ∧ repositoryFiles.length = 3 := by
  decide

/-- C9: for every rendered button its `key` equals its displayed label, and
since the four labels are pairwise distinct, all keys in the rendered list
are unique. -/
theorem button_keys_match_labels_and_unique :
    (collectClickable (Header ())).map keyOf = buttons.map some ∧
    (collectClickable (Header ())).map keyOf =
      (collectClickable (Header ())).map buttonLabel ∧
    buttons.Nodup := by
  refine ⟨?_, ?_, by decide⟩ <;>
    simp [Header, buttons, mkButton, collectClickable, collectClickableList,
      keyOf, buttonLabel, styles]

/-- C10: the exported build configuration is a factory whose resolved value
has exactly two fields: `base`, the absolute URL "https://tcm5343.github.io/"
(a full https origin, not a relative path), and `plugins`, a list of exactly
two entries with the React plugin first and the MDX plugin second. -/
theorem config_resolved_value_shape :
    ∃ obj, viteConfig = Except.ok obj ∧
      obj.length = 2 ∧
      obj.lookup "base" = some (ConfigValue.str "https://tcm5343.github.io/") ∧
      ("https://").toList.isPrefixOf ("https://tcm5343.github.io/").toList = true ∧
      obj.lookup "plugins" =
        some (ConfigValue.pluginList [Plugin.react, Plugin.mdx]) := by
  refine ⟨_, rfl, ?_, ?_, ?_, ?_⟩ <;> decide
